import Mathlib

/-!
Verification of the structured-generation and tool-orchestration engine of
whyrusleeping/gllm against its natural-language specification.

The engine's current revision lives in the repository's main source file
(`package gllm`, the revision with `MessagePrefill`, `Think`, the batch
engine and `extractJSONAndComment`); an earlier revision (the one carrying
`Client.HandleToolCall` over a merged client/request tool list) is also in
the tree.  Both are embedded below where a claim cites them.

Modelling conventions:
- Go strings are `List Char` (`GoStr`); the helpers mirror the `strings`
  package functions the source uses (`TrimSpace` is modelled on the
  Latin-1 range of `unicode.IsSpace`, which covers every string the
  source ever builds).
- The external model gateway is a script of replies consumed one per
  turn of the `for` loop; `encoding/json` decoding of tool arguments and
  of the final payload are caller-side parameters (`parseArgs`,
  `decode`), matching the spec's note that decoding is bound to a
  caller-supplied decoder for the target shape `T`.
- `req.MaxToolCalls` is mutated in place by the Go loop; the embedding
  threads it explicitly and reports its final value in `RunResult.budget`.
-/

set_option maxRecDepth 10000

namespace Gllm

/-- Go strings, modelled as lists of characters. -/
abbrev GoStr := List Char

/-- The opening-brace character the extractor scans for. -/
def braceChar : Char := '\x7b'

/-- Newline as a one-character Go string, the separator of `strings.Split(s, "\n")`. -/
def newlineStr : GoStr := ['\n']

/-- unicode.IsSpace restricted to the Latin-1 range: the characters Go's
`strings.TrimSpace` strips from the ASCII/Latin-1 text this engine handles. -/
def goIsSpace (c : Char) : Bool :=
  c = ' ' || c = '\t' || c = '\n' || c = '\x0B' || c = '\x0C' || c = '\r' ||
  c = '\x85' || c = '\xA0'

/-- Strip leading whitespace, first half of `strings.TrimSpace`. -/
def trimLeft (s : GoStr) : GoStr := s.dropWhile goIsSpace

/-- Strip trailing whitespace, second half of `strings.TrimSpace`. -/
def trimRight (s : GoStr) : GoStr := (s.reverse.dropWhile goIsSpace).reverse

/-- strings.TrimSpace. -/
def trimSpace (s : GoStr) : GoStr := trimRight (trimLeft s)

/-- strings.TrimPrefix: drop `pre` from the front of `s` when it is there. -/
def trimPre (s pre : GoStr) : GoStr :=
  if pre.isPrefixOf s then s.drop pre.length else s

/-- strings.TrimSuffix: drop `suf` from the end of `s` when it is there. -/
def trimSuf (s suf : GoStr) : GoStr :=
  if suf.isSuffixOf s then s.take (s.length - suf.length) else s

/-- strings.Split(s, "\n"): cut `s` at every newline; always non-empty. -/
def splitLines : GoStr → List GoStr
  | [] => [[]]
  | c :: rest =>
    if c = '\n' then [] :: splitLines rest
    else
      match splitLines rest with
      | [] => [[c]]
      | l :: ls => (c :: l) :: ls

/-- strings.Join(lines, "\n"). -/
def joinLines (lines : List GoStr) : GoStr := List.intercalate newlineStr lines

/-- strings.HasPrefix(s, string(c)) for the single characters the source tests. -/
def startsWith (s : GoStr) (c : Char) : Bool :=
  match s with
  | [] => false
  | c2 :: _ => c2 = c

/-- Decimal rendering of a Go int, as text/template prints `.MaxToolCalls`. -/
def goItoa (i : Int) : GoStr :=
  if i < 0 then '-' :: (Nat.repr (-i).toNat).data else (Nat.repr i.toNat).data

/-- Number of positions at which `needle` occurs in `hay` (all positions,
including overlapping ones); `occCount n h = 1` states that `n` appears in
`h` verbatim exactly once. -/
def occCount (needle hay : GoStr) : Nat :=
  (List.range (hay.length + 1)).countP (fun i => needle.isPrefixOf (hay.drop i))

/-- The code-fence opener the source strips: three backticks and the json tag. -/
def fenceJson : GoStr := ("```json").data

/-- The bare code-fence marker the source strips from the end. -/
def fenceBare : GoStr := ("```").data

/-- cleanJsonOutput: trim whitespace, strip a leading tagged fence and a
trailing fence marker, re-trim. -/
def cleanJsonOutput (s : GoStr) : GoStr :=
  trimSpace (trimSuf (trimPre (trimSpace s) fenceJson) fenceBare)

/-- extractJSONAndComment: split a model response into the prose before the
payload and the payload itself.  Text starting with a brace is all payload;
otherwise the first line starting with a brace begins the payload and the
(trimmed) lines before it are the comment; with no such line the whole text
is comment and the payload is empty. -/
def extractJSONAndComment (output : GoStr) : GoStr × GoStr :=
  if startsWith output braceChar then ([], output)
  else
    match (splitLines output).findIdx? (fun l => startsWith l braceChar) with
    | some i =>
      (trimSpace (joinLines ((splitLines output).take i)),
       joinLines ((splitLines output).drop i))
    | none => (output, [])

/-- One tool call requested by the model: `tc.ID`, `tc.Function.Name`,
`tc.Function.Arguments` (the raw argument JSON text). -/
structure ToolCall where
  id : GoStr
  name : GoStr
  args : GoStr
deriving DecidableEq

/-- gollama.Message: one conversation turn. -/
structure Message where
  role : GoStr
  content : GoStr
  images : List GoStr
  toolCalls : List ToolCall
  toolCallID : GoStr
deriving DecidableEq

/-- The decoded argument map a tool function receives (Go `map[string]any`,
with values carried as their JSON text). -/
abbrev ArgsMap := List (GoStr × GoStr)

/-- A caller-supplied tool: a name, a description shown to the model, and the
invocation function from a decoded argument map to a textual result or a
failure. -/
structure Tool where
  name : GoStr
  description : GoStr
  fn : ArgsMap → Except GoStr GoStr

/-- The merged tool list of the revision carrying `Client.HandleToolCall`:
client-registered tools (in registry iteration order) followed by the
request-scoped tools, as built at the top of `ModelCallStructured`. -/
def mergeTools (clientTools reqTools : List Tool) : List Tool :=
  clientTools ++ reqTools

/-- Error text for an unknown tool name, Go `fmt.Errorf("no such tool %q", name)`. -/
def noSuchToolErr (name : GoStr) : GoStr :=
  ("no such tool \"").data ++ name ++ ("\"").data

/-- Error text for undecodable argument JSON, Go `invalid arguments: %w`. -/
def invalidArgsErr (e : GoStr) : GoStr := ("invalid arguments: ").data ++ e

/-- Error text for a failing tool function, Go `tool invocation failed: %w`. -/
def toolFailedErr (e : GoStr) : GoStr := ("tool invocation failed: ").data ++ e

/-- HandleToolCall: scan the tool list for the first tool whose name matches
the call, decode the call's argument JSON (`parseArgs` stands for
`json.Unmarshal` into `map[string]any`), and invoke the tool function; each
failure stage yields its error.  This embeds `Client.HandleToolCall` of the
merged-list revision, whose semantics the external `gollama.HandleToolCall`
used by the current loop reproduces (the source's TODO notes the former is to
be dropped in favor of the latter). -/
def HandleToolCall (tools : List Tool) (parseArgs : GoStr → Except GoStr ArgsMap)
    (call : ToolCall) : Except GoStr GoStr :=
  match tools.find? (fun t => t.name == call.name) with
  | none => .error (noSuchToolErr call.name)
  | some t =>
    match parseArgs call.args with
    | .error e => .error (invalidArgsErr e)
    | .ok obj =>
      match t.fn obj with
      | .error e => .error (toolFailedErr e)
      | .ok resp => .ok resp

/-- A target result shape `T`, as the engine observes it: an optional custom
description (the `customOutputSpec.DescribeType` capability of `new(T)`) and
the result of `json.Marshal` on a zero-valued instance (the fallback, which
can fail for shapes the structured-text form cannot represent). -/
structure ShapeSpec where
  describe : Option GoStr
  marshalZero : Except GoStr GoStr

/-- renderOutputSpec: use the custom description when the shape exposes one,
else fall back to serializing the zero-valued instance. -/
def renderOutputSpec (s : ShapeSpec) : Except GoStr GoStr :=
  match s.describe with
  | some d => d |> .ok
  | none => s.marshalZero

/-- The fixed text of the default structured-call template before the
`.OutputTemplate` insertion point. -/
def tmplPre : GoStr :=
  ("\nWhen responding, ensure your output matches the following template strictly, output only json, starting with the \x7b character\n<output_template>\n").data

/-- renderDefaultPrompt: Go text/template execution of
`defaultStructuredCallPrompt` on `structuredCallParams` — the literal
template text with `.OutputTemplate`, `.Prompt`, `.Context` substituted and
the `gt .MaxToolCalls 0` guarded block included exactly when the budget is
positive. -/
def renderDefaultPrompt (ospec prompt contextStr : GoStr) (maxToolCalls : Int) : GoStr :=
  tmplPre ++ ospec ++ ("\n</output_template>\n").data ++ prompt ++ ("\n").data ++
  (if 0 < maxToolCalls then ("\nMax at most ").data ++ goItoa maxToolCalls ++ (" tool calls.\n").data
   else []) ++
  ("\n<context_for_task>\n").data ++ contextStr ++ ("\n</context_for_task>").data

/-- StructuredRequest, the current revision's fields that the engine reads
(the `PromptOverride` map is omitted: every claim under verification uses the
default `structured_call` template, and an override's text/template execution
is external to this embedding). -/
structure StructuredRequest where
  model : GoStr
  system : GoStr
  prompt : GoStr
  context : GoStr
  messagePrefill : List Message
  images : List GoStr
  maxToolCalls : Int
  tools : List Tool
  think : Option Bool

/-- gollama.RequestOptions as the loop fills it each turn: model, system
text, reasoning flag, full conversation, and — only while the budget is
positive — the declared tools (carried by name) and the `auto` tool choice. -/
structure RequestOptions where
  model : GoStr
  system : GoStr
  think : Bool
  messages : List Message
  tools : List GoStr
  toolChoice : GoStr
deriving DecidableEq

/-- The conversation seed of `ModelCallStructured`: the prefilled history if
non-empty, else a system message if system text is set, followed by the user
message carrying the rendered prompt and the request's images. -/
def buildInitialMsgs (req : StructuredRequest) (rendered : GoStr) : List Message :=
  (if req.messagePrefill ≠ [] then req.messagePrefill
   else if req.system ≠ [] then
     [{ role := ("system").data, content := req.system, images := [], toolCalls := [],
        toolCallID := [] }]
   else []) ++
  [{ role := ("user").data, content := rendered, images := req.images, toolCalls := [],
     toolCallID := [] }]

/-- The gateway request built at the top of each loop iteration from the
current conversation and the current (mutable) budget. -/
def buildGlreq (req : StructuredRequest) (curBudget : Int) (msgs : List Message) :
    RequestOptions :=
  { model := req.model
    system := req.system
    think := req.think.getD true
    messages := msgs
    tools := if 0 < curBudget then req.tools.map (fun t => t.name) else []
    toolChoice := if 0 < curBudget then ("auto").data else [] }

/-- One reply of the model gateway: either a transport failure or the first
choice's message (content plus requested tool calls). -/
structure ChatResponse where
  content : GoStr
  toolCalls : List ToolCall
deriving DecidableEq

/-- A scripted gateway turn: `ChatCompletion` fails or succeeds. -/
inductive GatewayReply
  | fail (e : GoStr)
  | ok (r : ChatResponse)
deriving DecidableEq

/-- The distinct error productions of `ModelCallStructured`: output-spec
rendering failure, transport failure, and the terminal payload-decode failure
`failed to parse JSON output: %w (output was: %s)` — the loop has no other
failure exits. -/
inductive LoopErr
  | ospecErr (e : GoStr)
  | transport (e : GoStr)
  | parseFailed (jsonErr : GoStr) (raw : GoStr)
deriving DecidableEq

/-- Terminal observation of one run: a decoded value with the model's
comment, a failure, or the script ran out while the loop was still going. -/
inductive Outcome (T : Type)
  | done (output : T) (modelComment : GoStr)
  | failed (e : LoopErr)
  | outOfScript
deriving DecidableEq

/-- Trace entry for one successful gateway turn: the budget when the turn
began and how many tool calls the model requested. -/
structure TurnInfo where
  budgetAtStart : Int
  requested : Nat
deriving DecidableEq

/-- Everything observable about one run: the outcome, the conversation and
budget (the caller's `req.MaxToolCalls` field) at the end, the tool calls
actually executed, and the per-turn trace. -/
structure RunResult (T : Type) where
  outcome : Outcome T
  msgs : List Message
  budget : Int
  executed : List ToolCall
  turns : List TurnInfo
deriving DecidableEq

/-- State produced by one pass of the inner tool-call loop. -/
structure ToolPhase where
  msgs : List Message
  budget : Int
  executed : List ToolCall
deriving DecidableEq

/-- The tool-result error wrapper, Go `fmt.Sprintf("Error: %v", err)`. -/
def toolErrText (e : GoStr) : GoStr := ("Error: ").data ++ e

/-- The inner `for _, tc := range mm.ToolCalls` loop of the current
revision: invoke each call (a failure becomes the `Error: ...` text), append
the tool-result message bound to the call id, decrement the budget, and stop
after the call that drives the budget to zero or below. -/
def handleToolCallsPhase (tools : List Tool) (parseArgs : GoStr → Except GoStr ArgsMap) :
    List ToolCall → Int → List Message → ToolPhase
  | [], b, msgs => ⟨msgs, b, []⟩
  | tc :: rest, b, msgs =>
    let toolresp :=
      match HandleToolCall tools parseArgs tc with
      | .ok s => s
      | .error e => toolErrText e
    let msgs2 := msgs ++
      [{ role := ("tool").data, content := toolresp, images := [], toolCalls := [],
         toolCallID := tc.id }]
    let b2 := b - 1
    if b2 ≤ 0 then ⟨msgs2, b2, [tc]⟩
    else
      let r := handleToolCallsPhase tools parseArgs rest b2 msgs2
      ⟨r.msgs, r.budget, tc :: r.executed⟩

/-- The `for` loop of the current `ModelCallStructured`, driven by the
gateway script: a transport failure is returned unchanged; a reply without
tool calls is cleaned, split into comment and payload, and decoded (failure
wraps the decoder error with the offending raw text); a reply with tool calls
appends the assistant message, runs the tool phase, and loops. -/
def runLoop {T : Type} (tools : List Tool) (parseArgs : GoStr → Except GoStr ArgsMap)
    (decode : GoStr → Except GoStr T) :
    List GatewayReply → List Message → Int → RunResult T
  | [], msgs, b => ⟨.outOfScript, msgs, b, [], []⟩
  | .fail e :: _, msgs, b => ⟨.failed (.transport e), msgs, b, [], []⟩
  | .ok r :: rest, msgs, b =>
    match r.toolCalls with
    | [] =>
      let output := cleanJsonOutput r.content
      let ex := extractJSONAndComment output
      match decode ex.2 with
      | .error e => ⟨.failed (.parseFailed e output), msgs, b, [], [⟨b, 0⟩]⟩
      | .ok v => ⟨.done v ex.1, msgs, b, [], [⟨b, 0⟩]⟩
    | _ :: _ =>
      let amsg : Message :=
        { role := ("assistant").data, content := r.content, images := [],
          toolCalls := r.toolCalls, toolCallID := [] }
      let ph := handleToolCallsPhase tools parseArgs r.toolCalls b (msgs ++ [amsg])
      let res := runLoop tools parseArgs decode rest ph.msgs ph.budget
      ⟨res.outcome, res.msgs, res.budget, ph.executed ++ res.executed,
       ⟨b, r.toolCalls.length⟩ :: res.turns⟩

/-- ModelCallStructured, current revision: render the output spec (a failure
returns immediately), render the user prompt with the default template, seed
the conversation, and enter the turn loop with the request's budget. -/
def ModelCallStructured {T : Type} (shape : ShapeSpec) (req : StructuredRequest)
    (parseArgs : GoStr → Except GoStr ArgsMap) (decode : GoStr → Except GoStr T)
    (script : List GatewayReply) : RunResult T :=
  match renderOutputSpec shape with
  | .error e => ⟨.failed (.ospecErr e), [], req.maxToolCalls, [], []⟩
  | .ok ospec =>
    let rendered := renderDefaultPrompt ospec req.prompt req.context req.maxToolCalls
    runLoop req.tools parseArgs decode script (buildInitialMsgs req rendered) req.maxToolCalls

/-- gollama.BatchRequestCounts, carried through unchanged by the engine;
modelled from the spec's outcome categories. -/
structure BatchCounts where
  processing : Int
  succeeded : Int
  errored : Int
  canceled : Int
  expired : Int
deriving DecidableEq

/-- gollama.Batch as the engine reads it: identifier, processing status, and
request counts. -/
structure Batch where
  id : GoStr
  processingStatus : GoStr
  requestCounts : BatchCounts
deriving DecidableEq

/-- One content block of a gateway-reported result message. -/
structure ContentBlock where
  type : GoStr
  text : GoStr
deriving DecidableEq

/-- The message attached to a succeeded batch item. -/
structure ResultMessage where
  content : List ContentBlock
deriving DecidableEq

/-- gollama.BatchError: a typed error record. -/
structure BatchError where
  type : GoStr
  message : GoStr
deriving DecidableEq

/-- The gateway-reported outcome of one batch item. -/
structure ItemResult where
  type : GoStr
  message : Option ResultMessage
  error : Option BatchError
deriving DecidableEq

/-- One gateway-reported batch item: correlation identifier plus outcome. -/
structure BatchItem where
  customID : GoStr
  result : ItemResult
deriving DecidableEq

/-- BatchResult, the engine's per-item result entry. -/
structure BatchResult (T : Type) where
  customID : GoStr
  output : Option T
  modelComment : GoStr
  error : Option BatchError
  resultType : GoStr
deriving DecidableEq

/-- BatchResponse: status, counts, and — once the batch has ended — the
decoded per-item results (`none` models the nil `Results` slice of a
not-yet-ended poll). -/
structure BatchResponse (T : Type) where
  batchID : GoStr
  status : GoStr
  requestCounts : BatchCounts
  results : Option (List (BatchResult T))
deriving DecidableEq

/-- Concatenation of the text blocks of a result message, as the succeeded
branch builds `contentText`. -/
def contentTextOf (blocks : List ContentBlock) : GoStr :=
  (blocks.filter (fun b => b.type == ("text").data)).foldl (fun acc b => acc ++ b.text) []

/-- The per-item body of the reconciliation loop in
`GetModelCallBatchResults`: classify by outcome type; for `succeeded`, check
the message and content, clean and extract, and decode — every failure stage
is recorded on this entry's `error` field; `errored` carries the gateway
error through; `canceled` and `expired` need no further processing. -/
def parseBatchItem {T : Type} (decode : GoStr → Except GoStr T) (item : BatchItem) :
    BatchResult T :=
  let base : BatchResult T :=
    { customID := item.customID, output := none, modelComment := [], error := none,
      resultType := item.result.type }
  if item.result.type = ("succeeded").data then
    match item.result.message with
    | none =>
      { base with error := some ⟨("missing_message").data,
          ("result marked as succeeded but message is nil").data⟩ }
    | some m =>
      if m.content = [] then
        { base with error := some ⟨("missing_content").data,
            ("result marked as succeeded but no content returned").data⟩ }
      else
        let output := cleanJsonOutput (contentTextOf m.content)
        let ex := extractJSONAndComment output
        if ex.2 = [] then
          { base with
            modelComment := ex.1
            error := some ⟨("no_json_output").data,
              ("no JSON output found in response").data⟩ }
        else
          match decode ex.2 with
          | .error e =>
            { base with
              modelComment := ex.1
              error := some ⟨("parsing_error").data,
                ("failed to parse JSON output: ").data ++ e⟩ }
          | .ok v =>
            { base with
              modelComment := ex.1
              output := some v }
  else if item.result.type = ("errored").data then
    { base with error := item.result.error }
  else base

/-- GetModelCallBatchResults: fetch the batch (a transport failure is
returned), report status and counts; when the status is not `ended` return
without results — the per-item results are not even fetched; otherwise fetch
the items (a transport failure is returned) and reconcile each one
independently with `parseBatchItem`. -/
def GetModelCallBatchResults {T : Type} (decode : GoStr → Except GoStr T)
    (gwBatch : Except GoStr Batch) (gwItems : Except GoStr (List BatchItem)) :
    Except GoStr (BatchResponse T) :=
  match gwBatch with
  | .error e => .error (("failed to get batch status: ").data ++ e)
  | .ok batch =>
    if batch.processingStatus ≠ ("ended").data then
      .ok { batchID := batch.id, status := batch.processingStatus,
            requestCounts := batch.requestCounts, results := none }
    else
      match gwItems with
      | .error e => .error (("failed to get batch results: ").data ++ e)
      | .ok items =>
        .ok { batchID := batch.id, status := batch.processingStatus,
              requestCounts := batch.requestCounts,
              results := some (items.map (parseBatchItem decode)) }

/-- The assistant message the loop appends before handling a turn's tool
calls. -/
def assistantOf (r : ChatResponse) : Message :=
  { role := ("assistant").data, content := r.content, images := [],
    toolCalls := r.toolCalls, toolCallID := [] }

/-- The tool-result message the loop appends for one handled call. -/
def toolResultMsg (tc : ToolCall) (contentStr : GoStr) : Message :=
  { role := ("tool").data, content := contentStr, images := [], toolCalls := [],
    toolCallID := tc.id }

/-- The decoded results of one reconciliation call, `none` when the call
failed or the batch had not ended. -/
def resultsOf {T : Type} (r : Except GoStr (BatchResponse T)) :
    Option (List (BatchResult T)) :=
  match r with
  | .ok resp => resp.results
  | .error _ => none

/-- An argument decoder that accepts every argument text as the empty map:
`json.Unmarshal` on the `\x7b\x7d` inputs the concrete runs below use. -/
def okParse : GoStr → Except GoStr ArgsMap := fun _ => .ok []

/-- A payload decoder for a trivial target shape: `json.Unmarshal` succeeds
on the empty-object payload and fails on anything else — in particular on
the empty payload, with Go's message for empty input. -/
def emptyFailDecode : GoStr → Except GoStr Nat := fun s =>
  if s = ("\x7b\x7d").data then .ok 0 else .error ("unexpected end of JSON input").data

/-- A registered tool whose invocation succeeds. -/
def cexTool : Tool := ⟨("echo").data, ("echoes its input").data, fun _ => .ok ("done").data⟩

/-- A model-issued call to `cexTool` with well-formed arguments. -/
def cexCall : ToolCall := ⟨("call_1").data, ("echo").data, ("\x7b\x7d").data⟩

/-- A gateway script that requests one tool call on the very first turn and
then finalizes with an empty-object payload. -/
def cexScriptC1 : List GatewayReply :=
  [.ok ⟨[], [cexCall]⟩, .ok ⟨("\x7b\x7d").data, []⟩]

/-- A model-issued call whose tool name is registered nowhere. -/
def unknownCall : ToolCall := ⟨("call_2").data, ("missing").data, ("\x7b\x7d").data⟩

/-- A client-registered tool named `t`. -/
def dupToolClient : Tool :=
  ⟨("t").data, ("client registered").data, fun _ => .ok ("from client tool").data⟩

/-- A request-scoped tool also named `t`. -/
def dupToolReq : Tool :=
  ⟨("t").data, ("request scoped").data, fun _ => .ok ("from request tool").data⟩

/-- A model-issued call to the duplicated name `t`. -/
def dupCall : ToolCall := ⟨("call_7").data, ("t").data, ("\x7b\x7d").data⟩

/-- A decoder for a string-like shape: accepts payloads that start with a
brace. -/
def wDecode : GoStr → Except GoStr GoStr := fun s =>
  if startsWith s braceChar then .ok s else .error ("invalid JSON").data

/-- A completed batch as the gateway reports it. -/
def wBatch : Batch := ⟨("batch_1").data, ("ended").data, ⟨0, 1, 1, 1, 0⟩⟩

/-- A still-running batch as the gateway reports it. -/
def wBatchInProgress : Batch := ⟨("batch_2").data, ("in_progress").data, ⟨3, 0, 0, 0, 0⟩⟩

/-- Three gateway-reported items: one succeeded with a valid payload, one
errored, one canceled. -/
def wItems : List BatchItem :=
  [⟨("request-0").data,
    ⟨("succeeded").data,
     some ⟨[⟨("text").data, ("\x7b\"label\":\"positive\"\x7d").data⟩]⟩, none⟩⟩,
   ⟨("request-1").data,
    ⟨("errored").data, none, some ⟨("api_error").data, ("boom").data⟩⟩⟩,
   ⟨("request-2").data, ⟨("canceled").data, none, none⟩⟩]

/-- A prefilled conversation turn. -/
def c6prefill : Message := ⟨("assistant").data, ("earlier turn").data, [], [], []⟩

/-- A request carrying both a non-empty prefilled history and non-empty
system instructions. -/
def c6req : StructuredRequest :=
  { model := ("m").data, system := ("SYS").data, prompt := ("do the thing").data,
    context := [], messagePrefill := [c6prefill], images := [], maxToolCalls := 0,
    tools := [], think := none }

/-- The user-message content rendered for `c6req` with an empty-object
output spec. -/
def c6rendered : GoStr :=
  renderDefaultPrompt ("\x7b\x7d").data c6req.prompt c6req.context c6req.maxToolCalls

/-- splitLines never returns an empty list of lines. -/
theorem splitLines_ne_nil (s : GoStr) : splitLines s ≠ [] := by
  cases s with
  | nil => simp [splitLines]
  | cons c rest =>
    simp only [splitLines]
    split
    · simp
    · split <;> simp

/-- A non-newline first character heads the first line of the split. -/
theorem splitLines_cons_of_ne (c : Char) (rest : GoStr) (hc : ¬c = '\n') :
    ∃ l ls, splitLines rest = l :: ls ∧ splitLines (c :: rest) = (c :: l) :: ls := by
  cases hr : splitLines rest with
  | nil => exact absurd hr (splitLines_ne_nil rest)
  | cons l ls =>
    refine ⟨l, ls, rfl, ?_⟩
    simp only [splitLines, if_neg hc, hr]

/-- A string whose every line lacks a leading brace does not itself start
with a brace. -/
theorem startsWith_false_of_lines (o : GoStr)
    (h : ∀ l ∈ splitLines o, startsWith l braceChar = false) :
    startsWith o braceChar = false := by
  cases o with
  | nil => rfl
  | cons c rest =>
    by_cases hc : c = '\n'
    · subst hc; rfl
    · obtain ⟨l, ls, hr, hsplit⟩ := splitLines_cons_of_ne c rest hc
      have hmem : (c :: l) ∈ splitLines (c :: rest) := by
        rw [hsplit]; exact List.mem_cons_self _ _
      have h2 := h _ hmem
      simp only [startsWith] at h2 ⊢
      exact h2

/-- When no line of the (cleaned) output starts with a brace, the extractor
returns the whole text as comment and an empty payload. -/
theorem extract_noBrace (o : GoStr)
    (h : ∀ l ∈ splitLines o, startsWith l braceChar = false) :
    extractJSONAndComment o = (o, []) := by
  have h0 := startsWith_false_of_lines o h
  have hf : (splitLines o).findIdx? (fun l => startsWith l braceChar) = none := by
    rw [List.findIdx?_eq_none_iff]
    exact fun l hl => h l hl
  simp [extractJSONAndComment, h0, hf]

/-- Any text of the form before ++ needle ++ after contains at least one
occurrence of the needle. -/
theorem occCount_embedded_pos (d A B : GoStr) : 1 ≤ occCount d (A ++ (d ++ B)) := by
  have hp : d.isPrefixOf ((A ++ (d ++ B)).drop A.length) = true := by
    rw [List.drop_left]
    rw [List.isPrefixOf_iff_prefix]
    exact ⟨B, rfl⟩
  have hmem : A.length ∈ List.range ((A ++ (d ++ B)).length + 1) := by
    rw [List.mem_range]
    simp only [List.length_append]
    omega
  have : 0 < occCount d (A ++ (d ++ B)) := by
    rw [occCount, List.countP_pos_iff]
    exact ⟨A.length, hmem, hp⟩
  omega

/-- The inner tool loop decrements the budget exactly once per executed
call: its final budget is the entering budget minus the number executed. -/
theorem phase_budget_spec (tools : List Tool) (pa : GoStr → Except GoStr ArgsMap) :
    ∀ (calls : List ToolCall) (b : Int) (msgs : List Message),
      (handleToolCallsPhase tools pa calls b msgs).budget
        = b - (handleToolCallsPhase tools pa calls b msgs).executed.length := by
  intro calls
  induction calls with
  | nil => intro b msgs; simp [handleToolCallsPhase]
  | cons tc rest ih =>
    intro b msgs
    simp only [handleToolCallsPhase]
    split
    · simp
    · simp only [List.length_cons]
      have := ih (b - 1) (msgs ++
        [{ role := ("tool").data,
           content := match HandleToolCall tools pa tc with
             | .ok s => s
             | .error e => toolErrText e,
           images := [], toolCalls := [], toolCallID := tc.id }])
      push_cast
      push_cast at this
      omega

/-- The inner tool loop entered with positive budget never drives the budget
negative: the stop-check fires as soon as the budget reaches zero. -/
theorem phase_budget_nonneg (tools : List Tool) (pa : GoStr → Except GoStr ArgsMap) :
    ∀ (calls : List ToolCall) (b : Int) (msgs : List Message), 0 < b →
      0 ≤ (handleToolCallsPhase tools pa calls b msgs).budget := by
  intro calls
  induction calls with
  | nil => intro b msgs hb; simpa [handleToolCallsPhase] using le_of_lt hb
  | cons tc rest ih =>
    intro b msgs hb
    simp only [handleToolCallsPhase]
    split
    · simp only; omega
    · rename_i hgt
      exact ih _ _ (by omega)

/-- Across a whole run, the final value of the request's budget field is the
initial budget minus the number of tool calls actually executed. -/
theorem runLoop_budget_spec {T : Type} (tools : List Tool)
    (pa : GoStr → Except GoStr ArgsMap) (decode : GoStr → Except GoStr T) :
    ∀ (script : List GatewayReply) (msgs : List Message) (b : Int),
      (runLoop tools pa decode script msgs b).budget
        = b - (runLoop tools pa decode script msgs b).executed.length := by
  intro script
  induction script with
  | nil => intro msgs b; simp [runLoop]
  | cons reply rest ih =>
    intro msgs b
    cases reply with
    | fail e => simp [runLoop]
    | ok r =>
      obtain ⟨content, toolCalls⟩ := r
      cases toolCalls with
      | nil =>
        simp only [runLoop]
        cases hdec : decode (extractJSONAndComment (cleanJsonOutput content)).2 <;>
          simp [hdec]
      | cons tc tcs =>
        simp only [runLoop, List.length_append]
        have h1 := phase_budget_spec tools pa (tc :: tcs) b (msgs ++
          [{ role := ("assistant").data, content := content, images := [],
             toolCalls := tc :: tcs, toolCallID := [] }])
        have h2 := ih (handleToolCallsPhase tools pa (tc :: tcs) b (msgs ++
          [{ role := ("assistant").data, content := content, images := [],
             toolCalls := tc :: tcs, toolCallID := [] }])).msgs
          (handleToolCallsPhase tools pa (tc :: tcs) b (msgs ++
          [{ role := ("assistant").data, content := content, images := [],
             toolCalls := tc :: tcs, toolCallID := [] }])).budget
        push_cast at h1 h2 ⊢
        omega

/-- When the model requests tool calls only on turns entered with positive
budget (the conforming-gateway discipline: declarations are offered exactly
then), the budget never becomes negative. -/
theorem runLoop_budget_nonneg {T : Type} (tools : List Tool)
    (pa : GoStr → Except GoStr ArgsMap) (decode : GoStr → Except GoStr T) :
    ∀ (script : List GatewayReply) (msgs : List Message) (b : Int), 0 ≤ b →
      (∀ t ∈ (runLoop tools pa decode script msgs b).turns,
        0 < t.requested → 0 < t.budgetAtStart) →
      0 ≤ (runLoop tools pa decode script msgs b).budget := by
  intro script
  induction script with
  | nil => intro msgs b hb _; simpa [runLoop] using hb
  | cons reply rest ih =>
    intro msgs b hb hconf
    cases reply with
    | fail e => simpa [runLoop] using hb
    | ok r =>
      obtain ⟨content, toolCalls⟩ := r
      cases toolCalls with
      | nil =>
        simp only [runLoop]
        cases hdec : decode (extractJSONAndComment (cleanJsonOutput content)).2 <;>
          simpa [hdec] using hb
      | cons tc tcs =>
        simp only [runLoop] at hconf ⊢
        have hb' : 0 < b := by
          have hh := hconf ⟨b, (tc :: tcs).length⟩ (List.mem_cons_self _ _)
          exact hh (by simp)
        have hph := phase_budget_nonneg tools pa (tc :: tcs) b (msgs ++
          [{ role := ("assistant").data, content := content, images := [],
             toolCalls := tc :: tcs, toolCallID := [] }]) hb'
        exact ih _ _ hph (fun t ht => hconf t (List.mem_cons_of_mem _ ht))

/-- Claim C4: applying fence-stripping then extraction to the raw text
`\x7b"a":1\x7d` yields comment `""` and payload `\x7b"a":1\x7d`; applying
them to the fenced raw text with the `hello` line yields comment `hello`
and payload `\x7b"a":1\x7d`. -/
theorem claim4_extractor_roundTrip :
    extractJSONAndComment (cleanJsonOutput (("\x7b\"a\":1\x7d").data))
      = (([] : GoStr), ("\x7b\"a\":1\x7d").data)
    ∧ extractJSONAndComment (cleanJsonOutput (("```json\nhello\n\x7b\"a\":1\x7d\n```").data))
      = (("hello").data, ("\x7b\"a\":1\x7d").data) :=
  ⟨by decide, by decide⟩

/-- Claim C1 counterexample: a run entered with initial budget `B = 0` whose
first gateway reply requests one tool call executes that call anyway (the
stop-check only fires after executing and decrementing), and the run still
finalizes normally on the next turn — so the number of executed tool
invocations, one, exceeds the initial budget, and a call requested at zero
remaining budget was executed rather than refused. -/
theorem claim1_counterexample :
    (runLoop [cexTool] okParse emptyFailDecode cexScriptC1 [] 0).executed = [cexCall]
    ∧ (runLoop [cexTool] okParse emptyFailDecode cexScriptC1 [] 0).outcome
        = .done 0 []
    ∧ ¬(((runLoop [cexTool] okParse emptyFailDecode cexScriptC1 [] 0).executed.length : Int)
        ≤ 0) :=
  ⟨by decide, by decide, by decide⟩

/-- Claim C1 (amended): provided every turn on which the model requests tool
calls begins with positive remaining budget — the only turns on which the
loop offers tool declarations — a run entered with budget `B ≥ 0` executes
at most `B` tool invocations; an unsolicited tool-call batch arriving at
zero budget instead executes one call before the stop-check, as the
counterexample shows. -/
theorem claim1_toolBudget_bound {T : Type} (tools : List Tool)
    (pa : GoStr → Except GoStr ArgsMap) (decode : GoStr → Except GoStr T)
    (script : List GatewayReply) (msgs : List Message) (b : Int) (hb : 0 ≤ b)
    (hconf : ∀ t ∈ (runLoop tools pa decode script msgs b).turns,
      0 < t.requested → 0 < t.budgetAtStart) :
    ((runLoop tools pa decode script msgs b).executed.length : Int) ≤ b := by
  have h1 := runLoop_budget_spec tools pa decode script msgs b
  have h2 := runLoop_budget_nonneg tools pa decode script msgs b hb hconf
  omega

/-- Claim C1 witness: a conforming run with budget 2 whose first turn
requests one tool call executes exactly one call, within the bound. -/
theorem claim1_toolBudget_bound_witness :
    ((runLoop [cexTool] okParse emptyFailDecode cexScriptC1 [] 2).executed.length : Int) ≤ 2 :=
  claim1_toolBudget_bound [cexTool] okParse emptyFailDecode cexScriptC1 [] 2
    (by decide) (by decide)

/-- Claim C10: the loop decrements the caller-visible `MaxToolCalls` field
once per executed tool call, so at every exit the field equals the initial
budget minus the number of executed calls; and the field can end negative —
in the concrete zero-budget run that handles one unsolicited tool call, it
ends at `-1`, having been decremented below zero before the stop-check. -/
theorem claim10_budget_mutation :
    (∀ (T : Type) (tools : List Tool) (pa : GoStr → Except GoStr ArgsMap)
       (decode : GoStr → Except GoStr T) (script : List GatewayReply)
       (msgs : List Message) (b : Int),
       (runLoop tools pa decode script msgs b).budget
         = b - (runLoop tools pa decode script msgs b).executed.length)
    ∧ (runLoop [cexTool] okParse emptyFailDecode cexScriptC1 [] 0).budget = -1 :=
  ⟨fun _ tools pa decode script msgs b => runLoop_budget_spec tools pa decode script msgs b,
   by decide⟩

/-- Claim C2: every in-loop tool-call failure — unknown tool name, argument
JSON that does not decode, or an error from the tool function itself — makes
`HandleToolCall` return an error, and the loop then appends a tool-result
message whose content is the non-empty `Error: ...` string and continues
with another model turn: the run's outcome is exactly the outcome of the
loop on the remaining script, so the failure neither aborts the loop nor
surfaces to the caller. -/
theorem claim2_toolFailure_nonFatal :
    (∀ (T : Type) (tools : List Tool) (pa : GoStr → Except GoStr ArgsMap)
       (decode : GoStr → Except GoStr T) (r : ChatResponse) (tc : ToolCall) (e : GoStr)
       (rest : List GatewayReply) (msgs : List Message) (b : Int),
       r.toolCalls = [tc] → HandleToolCall tools pa tc = .error e →
       runLoop tools pa decode (.ok r :: rest) msgs b =
         { runLoop tools pa decode rest
             (msgs ++ [assistantOf r, toolResultMsg tc (toolErrText e)]) (b - 1) with
           executed := tc :: (runLoop tools pa decode rest
             (msgs ++ [assistantOf r, toolResultMsg tc (toolErrText e)]) (b - 1)).executed
           turns := ⟨b, 1⟩ :: (runLoop tools pa decode rest
             (msgs ++ [assistantOf r, toolResultMsg tc (toolErrText e)]) (b - 1)).turns }
       ∧ toolErrText e ≠ [])
    ∧ (∀ (tools : List Tool) (pa : GoStr → Except GoStr ArgsMap) (call : ToolCall),
       tools.find? (fun t => t.name == call.name) = none →
       HandleToolCall tools pa call = .error (noSuchToolErr call.name))
    ∧ (∀ (tools : List Tool) (pa : GoStr → Except GoStr ArgsMap) (call : ToolCall)
         (t : Tool) (pe : GoStr),
       tools.find? (fun u => u.name == call.name) = some t → pa call.args = .error pe →
       HandleToolCall tools pa call = .error (invalidArgsErr pe))
    ∧ (∀ (tools : List Tool) (pa : GoStr → Except GoStr ArgsMap) (call : ToolCall)
         (t : Tool) (m : ArgsMap) (fe : GoStr),
       tools.find? (fun u => u.name == call.name) = some t → pa call.args = .ok m →
       t.fn m = .error fe → HandleToolCall tools pa call = .error (toolFailedErr fe)) := by
  refine ⟨?_, ?_, ?_, ?_⟩
  · intro T tools pa decode r tc e rest msgs b hcalls herr
    obtain ⟨content, toolCalls⟩ := r
    simp only at hcalls
    subst hcalls
    refine ⟨?_, by simp [toolErrText]⟩
    simp only [runLoop, handleToolCallsPhase, herr]
    split
    · simp [assistantOf, toolResultMsg]
    · simp [handleToolCallsPhase, assistantOf, toolResultMsg]
  · intro tools pa call hfind
    simp [HandleToolCall, hfind]
  · intro tools pa call t pe hfind hargs
    simp [HandleToolCall, hfind, hargs]
  · intro tools pa call t m fe hfind hargs hfn
    simp [HandleToolCall, hfind, hargs, hfn]

/-- Claim C2 witness: a concrete turn calling an unregistered tool appends
the non-empty `Error: no such tool "missing"` tool message and proceeds. -/
theorem claim2_toolFailure_nonFatal_witness :
    (runLoop [cexTool] okParse emptyFailDecode ((.ok ⟨[], [unknownCall]⟩) :: []) [] 3 =
      { runLoop [cexTool] okParse emptyFailDecode []
          ([] ++ [assistantOf ⟨[], [unknownCall]⟩,
                  toolResultMsg unknownCall (toolErrText (noSuchToolErr ("missing").data))])
          (3 - 1) with
        executed := unknownCall :: (runLoop [cexTool] okParse emptyFailDecode []
          ([] ++ [assistantOf ⟨[], [unknownCall]⟩,
                  toolResultMsg unknownCall (toolErrText (noSuchToolErr ("missing").data))])
          (3 - 1)).executed
        turns := ⟨3, 1⟩ :: (runLoop [cexTool] okParse emptyFailDecode []
          ([] ++ [assistantOf ⟨[], [unknownCall]⟩,
                  toolResultMsg unknownCall (toolErrText (noSuchToolErr ("missing").data))])
          (3 - 1)).turns })
    ∧ toolErrText (noSuchToolErr ("missing").data) ≠ [] :=
  claim2_toolFailure_nonFatal.1 Nat [cexTool] okParse emptyFailDecode
    ⟨[], [unknownCall]⟩ unknownCall (noSuchToolErr ("missing").data) [] [] 3 rfl rfl

/-- Claim C3 counterexample: on the response text `hello world` — no line
begins with a brace — the interactive loop's terminal decode fails with the
generic JSON-parse production `parseFailed` wrapping the decoder's error on
the empty payload, not with any distinct no-structured-output condition; the
batch path, by contrast, records the distinct `no_json_output` error for the
same text, so the claimed distinct condition is absent from the interactive
path. -/
theorem claim3_counterexample :
    (runLoop ([] : List Tool) okParse emptyFailDecode
        [.ok ⟨("hello world").data, []⟩] [] 0).outcome
      = .failed (.parseFailed ("unexpected end of JSON input").data ("hello world").data)
    ∧ (parseBatchItem emptyFailDecode
        ⟨("request-0").data,
         ⟨("succeeded").data, some ⟨[⟨("text").data, ("hello world").data⟩]⟩, none⟩⟩).error
      = some ⟨("no_json_output").data, ("no JSON output found in response").data⟩ :=
  ⟨by decide, by decide⟩

/-- Claim C3 (amended): when no line of the (cleaned) response begins with a
brace, the extractor returns the whole text as comment and an empty payload;
batch reconciliation then records the distinct `no_json_output` error on the
item; the interactive Turn Loop's terminal decode, however, fails with the
generic JSON-parse error wrapping the decoder's failure on the empty payload
(with the offending raw text attached), there being no distinct
no-structured-output condition on that path. -/
theorem claim3_noJsonOutput :
    (∀ o : GoStr, (∀ l ∈ splitLines o, startsWith l braceChar = false) →
       extractJSONAndComment o = (o, []))
    ∧ (∀ (T : Type) (decode : GoStr → Except GoStr T) (cid contentStr : GoStr),
       (∀ l ∈ splitLines (cleanJsonOutput contentStr), startsWith l braceChar = false) →
       parseBatchItem decode
         ⟨cid, ⟨("succeeded").data, some ⟨[⟨("text").data, contentStr⟩]⟩, none⟩⟩
         = ⟨cid, none, cleanJsonOutput contentStr,
            some ⟨("no_json_output").data, ("no JSON output found in response").data⟩,
            ("succeeded").data⟩)
    ∧ (∀ (T : Type) (decode : GoStr → Except GoStr T) (e : GoStr) (tools : List Tool)
         (pa : GoStr → Except GoStr ArgsMap) (rest : List GatewayReply)
         (msgs : List Message) (b : Int) (r : ChatResponse),
       r.toolCalls = [] →
       (∀ l ∈ splitLines (cleanJsonOutput r.content), startsWith l braceChar = false) →
       decode [] = .error e →
       (runLoop tools pa decode (.ok r :: rest) msgs b).outcome
         = .failed (.parseFailed e (cleanJsonOutput r.content))) := by
  refine ⟨?_, ?_, ?_⟩
  · intro o hlines
    exact extract_noBrace o hlines
  · intro T decode cid contentStr hlines
    have hex := extract_noBrace _ hlines
    simp [parseBatchItem, contentTextOf, hex]
  · intro T decode e tools pa rest msgs b r hcalls hlines hdec
    obtain ⟨content, toolCalls⟩ := r
    simp only at hcalls
    subst hcalls
    have hex := extract_noBrace _ hlines
    simp [runLoop, hex, hdec]

/-- Claim C3 witness: the concrete no-brace text `no payload here` takes the
no-payload branch in both the extractor and the batch reconciler. -/
theorem claim3_noJsonOutput_witness :
    parseBatchItem emptyFailDecode
      ⟨("request-1").data,
       ⟨("succeeded").data, some ⟨[⟨("text").data, ("no payload here").data⟩]⟩, none⟩⟩
      = ⟨("request-1").data, none, cleanJsonOutput ("no payload here").data,
         some ⟨("no_json_output").data, ("no JSON output found in response").data⟩,
         ("succeeded").data⟩ :=
  claim3_noJsonOutput.2.1 Nat emptyFailDecode ("request-1").data ("no payload here").data
    (by decide)

/-- Claim C5: reconciling a completed batch succeeds with exactly one result
entry per gateway-reported item — the i-th entry a function of the i-th item
alone — and each per-item failure stage (missing message, empty content, no
payload found, decode error) is recorded locally on that entry's error field
with its correlation id and result type preserved, while an errored item
carries the gateway error through; no stage aborts reconciliation or fails
the batch. -/
theorem claim5_batch_isolation :
    (∀ (T : Type) (decode : GoStr → Except GoStr T) (batch : Batch) (items : List BatchItem),
       batch.processingStatus = ("ended").data →
       GetModelCallBatchResults decode (.ok batch) (.ok items)
         = .ok ⟨batch.id, batch.processingStatus, batch.requestCounts,
                some (items.map (parseBatchItem decode))⟩
       ∧ (items.map (parseBatchItem decode)).length = items.length
       ∧ ∀ i : Nat, (items.map (parseBatchItem decode))[i]?
           = (items[i]?).map (parseBatchItem decode))
    ∧ (∀ (T : Type) (decode : GoStr → Except GoStr T) (item : BatchItem),
       (parseBatchItem decode item).customID = item.customID
       ∧ (parseBatchItem decode item).resultType = item.result.type)
    ∧ (∀ (T : Type) (decode : GoStr → Except GoStr T) (cid : GoStr) (errOpt : Option BatchError),
       parseBatchItem decode ⟨cid, ⟨("succeeded").data, none, errOpt⟩⟩
         = ⟨cid, none, [],
            some ⟨("missing_message").data,
              ("result marked as succeeded but message is nil").data⟩,
            ("succeeded").data⟩)
    ∧ (∀ (T : Type) (decode : GoStr → Except GoStr T) (cid : GoStr) (errOpt : Option BatchError),
       parseBatchItem decode ⟨cid, ⟨("succeeded").data, some ⟨[]⟩, errOpt⟩⟩
         = ⟨cid, none, [],
            some ⟨("missing_content").data,
              ("result marked as succeeded but no content returned").data⟩,
            ("succeeded").data⟩)
    ∧ (∀ (T : Type) (decode : GoStr → Except GoStr T) (cid contentStr commentStr j e : GoStr),
       extractJSONAndComment (cleanJsonOutput contentStr) = (commentStr, j) → j ≠ [] →
       decode j = .error e →
       parseBatchItem decode
         ⟨cid, ⟨("succeeded").data, some ⟨[⟨("text").data, contentStr⟩]⟩, none⟩⟩
         = ⟨cid, none, commentStr,
            some ⟨("parsing_error").data, ("failed to parse JSON output: ").data ++ e⟩,
            ("succeeded").data⟩)
    ∧ (∀ (T : Type) (decode : GoStr → Except GoStr T) (cid : GoStr)
         (msgOpt : Option ResultMessage) (errOpt : Option BatchError),
       parseBatchItem decode ⟨cid, ⟨("errored").data, msgOpt, errOpt⟩⟩
         = ⟨cid, none, [], errOpt, ("errored").data⟩) := by
  refine ⟨?_, ?_, ?_, ?_, ?_, ?_⟩
  · intro T decode batch items hstatus
    refine ⟨?_, by simp, fun i => by simp⟩
    simp [GetModelCallBatchResults, hstatus]
  · intro T decode item
    obtain ⟨cid, ty, msgOpt, errOpt⟩ := item
    simp only [parseBatchItem]
    repeat' split
    all_goals exact ⟨rfl, rfl⟩
  · intro T decode cid errOpt
    simp [parseBatchItem]
  · intro T decode cid errOpt
    simp [parseBatchItem]
  · intro T decode cid contentStr commentStr j e hex hj hdec
    simp [parseBatchItem, contentTextOf, hex, hj, hdec]
  · intro T decode cid msgOpt errOpt
    simp [parseBatchItem]

/-- Claim C5 witness: the three-item completed batch — one succeeded with a
valid payload, one errored, one canceled — reconciles to exactly its
item-wise results. -/
theorem claim5_batch_isolation_witness :
    GetModelCallBatchResults wDecode (.ok wBatch) (.ok wItems)
      = .ok ⟨wBatch.id, wBatch.processingStatus, wBatch.requestCounts,
             some (wItems.map (parseBatchItem wDecode))⟩ :=
  (claim5_batch_isolation.1 GoStr wDecode wBatch wItems rfl).1

/-- Claim C6, evaluated at the failing input: with a non-empty prefilled
history and system text `SYS`, the conversation is indeed seeded with the
prefill followed by the rendered user message and no separate system message
— but the gateway request built for the turn still carries `SYS` in its
`System` field, so the system instructions are delivered to the model
anyway, contrary to the claim and to the `MessagePrefill` field's own
documentation. -/
theorem claim6_prefill_system_still_delivered :
    buildInitialMsgs c6req c6rendered
      = [c6prefill, ⟨("user").data, c6rendered, [], [], []⟩]
    ∧ (buildGlreq c6req c6req.maxToolCalls (buildInitialMsgs c6req c6rendered)).system
        = ("SYS").data
    ∧ ("SYS").data ≠ ([] : GoStr) :=
  ⟨by decide, rfl, by decide⟩

/-- Claim C7 counterexample: with a client-registered tool and a
request-scoped tool both named `t`, resolving a call to `t` over the merged
list selects the client-registered one — the first match in the scan, not
the last-registered — and invokes its function. -/
theorem claim7_counterexample :
    HandleToolCall (mergeTools [dupToolClient] [dupToolReq]) okParse dupCall
      = .ok ("from client tool").data
    ∧ ("from client tool").data ≠ ("from request tool").data :=
  ⟨rfl, by decide⟩

/-- Claim C7 (amended): resolving a model-requested tool call scans the
merged list — client-registered tools first, then request-scoped tools — and
selects the first tool bearing the requested name, regardless of any
same-named tools later in the list; that tool's function is the one
invoked. -/
theorem claim7_firstMatch_wins (clientTools postTools : List Tool) (t : Tool)
    (pa : GoStr → Except GoStr ArgsMap) (call : ToolCall) (m : ArgsMap) (resp : GoStr)
    (hname : (t.name == call.name) = true)
    (hpre : ∀ u ∈ clientTools, (u.name == call.name) = false)
    (hargs : pa call.args = .ok m) (hfn : t.fn m = .ok resp) :
    (mergeTools clientTools (t :: postTools)).find? (fun u => u.name == call.name) = some t
    ∧ HandleToolCall (mergeTools clientTools (t :: postTools)) pa call = .ok resp := by
  have hnone : clientTools.find? (fun u => u.name == call.name) = none := by
    rw [List.find?_eq_none]
    intro u hu
    simp [hpre u hu]
  have hfind : (mergeTools clientTools (t :: postTools)).find?
      (fun u => u.name == call.name) = some t := by
    rw [mergeTools, List.find?_append, hnone]
    simp only [Option.none_or]
    exact List.find?_cons_of_pos _ hname
  refine ⟨hfind, ?_⟩
  simp [HandleToolCall, hfind, hargs, hfn]

/-- Claim C7 witness: with no same-named client tool, a request-scoped tool
named `t` is resolved even when another tool of the same name follows it in
the merged list. -/
theorem claim7_firstMatch_wins_witness :
    (mergeTools [cexTool] (dupToolReq :: [dupToolClient])).find?
        (fun u => u.name == dupCall.name) = some dupToolReq
    ∧ HandleToolCall (mergeTools [cexTool] (dupToolReq :: [dupToolClient])) okParse dupCall
        = .ok ("from request tool").data :=
  claim7_firstMatch_wins [cexTool] [dupToolClient] dupToolReq okParse dupCall []
    ("from request tool").data (by decide) (by decide) rfl rfl

/-- Claim C8 counterexample: a shape whose custom description is the text
`json` — which already occurs in the fixed template sentence `output only
json` — renders through the description capability as claimed, but the
prompt produced with the default structured-call template then contains that
description verbatim twice, not exactly once. -/
theorem claim8_counterexample :
    renderOutputSpec ⟨some ("json").data, .ok []⟩ = .ok ("json").data
    ∧ occCount ("json").data (renderDefaultPrompt ("json").data [] [] 0) = 2 :=
  ⟨rfl, by decide⟩

/-- Claim C8 (amended): a shape exposing the custom description capability
has that description — used verbatim by the output-spec renderer — embedded
verbatim in the rendered default prompt (at least once; a description that
also occurs in the fixed template text, the task prompt, or the context
appears more than once, as the counterexample shows); shapes without the
capability fall back to the serialization of a zero-valued instance, and a
failure of that serialization is surfaced to the caller as the call's
error. -/
theorem claim8_outputSpec :
    (∀ (s : ShapeSpec) (d : GoStr), s.describe = some d → renderOutputSpec s = .ok d)
    ∧ (∀ (d p c : GoStr) (m : Int), 1 ≤ occCount d (renderDefaultPrompt d p c m))
    ∧ (∀ s : ShapeSpec, s.describe = none → renderOutputSpec s = s.marshalZero)
    ∧ (∀ (T : Type) (s : ShapeSpec) (e : GoStr) (req : StructuredRequest)
         (pa : GoStr → Except GoStr ArgsMap) (decode : GoStr → Except GoStr T)
         (script : List GatewayReply),
       s.describe = none → s.marshalZero = .error e →
       ModelCallStructured s req pa decode script
         = ⟨.failed (.ospecErr e), [], req.maxToolCalls, [], []⟩) := by
  refine ⟨?_, ?_, ?_, ?_⟩
  · intro s d h
    simp [renderOutputSpec, h]
  · intro d p c m
    unfold renderDefaultPrompt
    simp only [List.append_assoc]
    exact occCount_embedded_pos d tmplPre _
  · intro s h
    simp [renderOutputSpec, h]
  · intro T s e req pa decode script h1 h2
    simp [ModelCallStructured, renderOutputSpec, h1, h2]

/-- Claim C8 witness: a concrete described shape renders to its description,
and a concrete shape whose zero-instance serialization fails surfaces that
error from the structured call. -/
theorem claim8_outputSpec_witness :
    renderOutputSpec ⟨some ("a friendly shape").data, .ok []⟩
      = .ok ("a friendly shape").data
    ∧ ModelCallStructured ⟨none, .error ("json: unsupported type").data⟩ c6req okParse
        emptyFailDecode []
      = ⟨.failed (.ospecErr ("json: unsupported type").data), [],
         c6req.maxToolCalls, [], []⟩ :=
  ⟨claim8_outputSpec.1 ⟨some ("a friendly shape").data, .ok []⟩ ("a friendly shape").data rfl,
   claim8_outputSpec.2.2.2 Nat ⟨none, .error ("json: unsupported type").data⟩
     ("json: unsupported type").data c6req okParse emptyFailDecode [] rfl rfl⟩

/-- Claim C9: polling a batch whose processing status is not `ended` returns
its status and request counts with no decoded results — the per-item results
argument is not even consulted, so any two polls of such a batch agree; on a
completed batch the decoded results are a function of the gateway's per-item
results alone, so two reconciliations over the same reported items yield
identical decoded results; and reconciliation itself is a pure function of
its gateway inputs. -/
theorem claim9_poll_gated_idempotent :
    (∀ (T : Type) (decode : GoStr → Except GoStr T) (batch : Batch)
       (g1 g2 : Except GoStr (List BatchItem)),
       batch.processingStatus ≠ ("ended").data →
       GetModelCallBatchResults decode (.ok batch) g1
         = .ok ⟨batch.id, batch.processingStatus, batch.requestCounts, none⟩
       ∧ GetModelCallBatchResults decode (.ok batch) g1
         = GetModelCallBatchResults decode (.ok batch) g2)
    ∧ (∀ (T : Type) (decode : GoStr → Except GoStr T) (b1 b2 : Batch)
         (items : List BatchItem),
       b1.processingStatus = ("ended").data → b2.processingStatus = ("ended").data →
       resultsOf (GetModelCallBatchResults decode (.ok b1) (.ok items))
         = resultsOf (GetModelCallBatchResults decode (.ok b2) (.ok items)))
    ∧ (∀ (T : Type) (decode : GoStr → Except GoStr T) (gb : Except GoStr Batch)
         (gi : Except GoStr (List BatchItem)),
       GetModelCallBatchResults decode gb gi = GetModelCallBatchResults decode gb gi) := by
  refine ⟨?_, ?_, ?_⟩
  · intro T decode batch g1 g2 h
    constructor
    · simp [GetModelCallBatchResults, h]
    · simp [GetModelCallBatchResults, h]
  · intro T decode b1 b2 items h1 h2
    simp [GetModelCallBatchResults, resultsOf, h1, h2]
  · intro T decode gb gi
    rfl

/-- Claim C9 witness: polling the concrete in-progress batch returns status
and counts with no results, and gives the same answer whether the results
channel would have produced items or a transport failure. -/
theorem claim9_poll_gated_idempotent_witness :
    GetModelCallBatchResults wDecode (.ok wBatchInProgress) (.ok wItems)
      = .ok ⟨("batch_2").data, ("in_progress").data, ⟨3, 0, 0, 0, 0⟩, none⟩
    ∧ GetModelCallBatchResults wDecode (.ok wBatchInProgress) (.ok wItems)
      = GetModelCallBatchResults wDecode (.ok wBatchInProgress)
          (.error ("network unreachable").data) :=
  claim9_poll_gated_idempotent.1 GoStr wDecode wBatchInProgress (.ok wItems)
    (.error ("network unreachable").data) (by decide)

end Gllm
